import Mathlib

/-!
Verification of the library BFF gateway (`src/bff/main.py`, `src/bff/auth.py`)
against its natural-language specification.

The Python route handlers are shallowly embedded as pure Lean functions.
A handler takes the parsed form data, the optional uploaded file, and the
responses the upstream API would give to each call the handler issues, and
returns the HTTP outcome together with the trace of upstream calls issued
and the files written to the upload directory.

Python-level detail modelled faithfully:
  * `request.form.to_dict()` is an insertion-ordered map with distinct keys;
    forms are association lists, with a `Nodup` hypothesis where it matters.
  * Python `len` on `str` counts Unicode codepoints; so does `String.length`
    on the Lean side.
  * referencing a local variable before assignment raises `UnboundLocalError`;
    an exception not caught by any `except` clause makes Flask answer 500.
  * `requests` raises a `RequestException` on transport failure, and
    `raise_for_status` raises an `HTTPError` (also a `RequestException`)
    for status codes in [400, 600).
-/

/-- HTTP methods used by the gateway and its upstream calls. -/
inductive Method
  | GET | POST | PUT | DELETE
deriving DecidableEq, Repr

/-- The JSON fields of an upstream response body that the handlers read:
`resp.json().get("id", ...)`, `.get('error', ...)`, `.get("message")`. -/
structure JsonBody where
  id : Option Nat
  error : Option String
  message : Option String
deriving DecidableEq, Repr

/-- Behaviour of the upstream API on one call: either an HTTP response with a
status code and a JSON body, or a transport-level failure (connection refused,
timeout, DNS), which `requests` surfaces as a raised `RequestException`. -/
inductive UpstreamResp
  | http (status : Nat) (body : JsonBody)
  | transportFail (msg : String)
deriving DecidableEq, Repr

/-- The book JSON payload built by `add_book` / `update_book`
(`data = {'title': ..., 'details': ..., 'author_id': ..., 'is_borrowed': ..., 'photo': ...}`). -/
structure BookPayload where
  title : Option String
  details : Option String
  author_id : Int
  is_borrowed : Bool
  photo : Option String
deriving DecidableEq, Repr

/-- Request payloads the gateway sends upstream. -/
inductive Payload
  | authorJson (firstname lastname : Option String) (photo : Option String)
  | bookJson (b : BookPayload)
  | subscriberJson (firstname lastname email : Option String)
  | credsJson (email password : Option String)
  | binary (filePath : String) (contentType : String)
deriving DecidableEq, Repr

/-- One call issued to the upstream API. -/
structure UpstreamCall where
  method : Method
  path : String
  payload : Option Payload
deriving DecidableEq, Repr

/-- Python exceptions relevant to the embedded handlers. -/
inductive PyExc
  | unboundLocal (name : String)
  | requestExc (msg : String)
  | httpStatusError (status : Nat)
  | valueError (msg : String)
deriving DecidableEq, Repr

/-- Python `str(err)` for the exceptions above (CPython wording for
`UnboundLocalError`; `requests` exceptions stringify to their message). -/
def pyStr : PyExc → String
  | .unboundLocal n =>
      "cannot access local variable " ++ n ++
      " where it is not associated with a value"
  | .requestExc m => m
  | .httpStatusError s => toString s ++ " Error for url"
  | .valueError m => m

/-- Responses a handler can return normally. -/
inductive Resp
  | jsonError (status : Nat) (error : String) (details : Option String)
  | redirect (endpoint : String)
  | template (name : String) (error : Option String)
deriving DecidableEq, Repr

/-- Result of one request: a returned response, or an exception that escaped
every `except` clause, which Flask turns into a generic 500. -/
inductive HandlerResult
  | ok (r : Resp)
  | uncaught (e : PyExc)
deriving DecidableEq, Repr

/-- The HTTP status the caller sees. `redirect(url_for(...))` is 302,
`render_template` is 200, an uncaught exception is Flask's 500. -/
def httpStatus : HandlerResult → Nat
  | .ok (.jsonError s _ _) => s
  | .ok (.redirect _) => 302
  | .ok (.template _ _) => 200
  | .uncaught _ => 500

/-- Side effects of one request: upstream calls issued, and files written to
the upload directory as (path, content) pairs. -/
structure Effects where
  calls : List UpstreamCall
  writes : List (String × String)
deriving DecidableEq, Repr

/-- Full observable outcome of one request. -/
structure Outcome where
  result : HandlerResult
  eff : Effects
deriving DecidableEq, Repr

/-! The validator (`validate_body_length`, main.py lines 21-42). -/

/-- Python `str.capitalize`: first character uppercased, the rest lowercased. -/
def pyCapitalize (s : String) : String :=
  match s.toList with
  | [] => ""
  | c :: rest => String.mk (c.toUpper :: rest.map Char.toLower)

/-- The two rejections `validate_body_length` can produce. -/
inductive ValidationReject
  | fieldTooLong (key : String) (limit : Nat)
  | bodyTooLong (maxLen : Nat)
deriving DecidableEq, Repr

/-- The 400 error message of each rejection, as formatted in the source. -/
def rejectMsg : ValidationReject → String
  | .fieldTooLong k lim =>
      pyCapitalize k ++ " field too long, should not exceed " ++
      toString lim ++ " characters."
  | .bodyTooLong m =>
      "Request body too long, should not exceed " ++ toString m ++ " characters."

/-- The loop of `validate_body_length`: walk the form fields in order,
accumulating `total_length`; return the first per-field violation, else the
final total. `String.length` counts codepoints, as Python `len` does. -/
def scanFields (fieldLimits : List (String × Nat)) :
    List (String × String) → Nat → Except ValidationReject Nat
  | [], total => .ok total
  | (k, v) :: rest, total =>
    match fieldLimits.lookup k with
    | some lim =>
        if v.length > lim then .error (.fieldTooLong k lim)
        else scanFields fieldLimits rest (total + v.length)
    | none => scanFields fieldLimits rest (total + v.length)

/-- Model of `validate_body_length(max_length, field_limits)` applied to one request:
`none` means the check passed and the wrapped handler runs; `some r` is a 400
rejection. Only POST and PUT requests are checked. -/
def validate_body_length (maxLength : Nat) (fieldLimits : List (String × Nat))
    (method : Method) (form : List (String × String)) : Option ValidationReject :=
  if method = .POST ∨ method = .PUT then
    match scanFields fieldLimits form 0 with
    | .error r => some r
    | .ok total => if total > maxLength then some (.bodyTooLong maxLength) else none
  else none

/-- The decorator's wrapper: on rejection, return the 400 JSON error without
running the wrapped handler (so it issues no upstream call and stages no
file); otherwise run the handler. -/
def wrapValidated (maxLength : Nat) (fieldLimits : List (String × Nat))
    (method : Method) (form : List (String × String))
    (handler : Unit → Outcome) : Outcome :=
  match validate_body_length maxLength fieldLimits method form with
  | some r => { result := .ok (.jsonError 400 (rejectMsg r) none), eff := ⟨[], []⟩ }
  | none => handler ()

/-- Total codepoint length of all form fields. -/
def sumFieldLen (form : List (String × String)) : Nat :=
  (form.map (fun kv => kv.2.length)).sum

/-- The first form field, in insertion order, that has a declared per-field
limit and exceeds it (the field `validate_body_length` reports). -/
def firstOffender (fieldLimits : List (String × Nat)) :
    List (String × String) → Option (String × Nat)
  | [] => none
  | (k, v) :: rest =>
    match fieldLimits.lookup k with
    | some lim =>
        if v.length > lim then some (k, lim) else firstOffender fieldLimits rest
    | none => firstOffender fieldLimits rest

/-! Upload staging (`secure_filename`, `os.path`). -/

/-- Characters `werkzeug.utils.secure_filename` keeps: ASCII alphanumerics,
underscore, dot, hyphen. -/
def filenameKeepChar (c : Char) : Bool :=
  (65 ≤ c.toNat && c.toNat ≤ 90) || (97 ≤ c.toNat && c.toNat ≤ 122) ||
  (48 ≤ c.toNat && c.toNat ≤ 57) || c = '_' || c = '.' || c = '-'

/-- Python `str.split()` whitespace: space, tab, newline, carriage return,
vertical tab, form feed. -/
def pyIsSpace (c : Char) : Bool :=
  c.toNat = 32 || c.toNat = 9 || c.toNat = 10 ||
  c.toNat = 13 || c.toNat = 11 || c.toNat = 12

/-- Python `str.split()` (no argument): split on runs of whitespace,
discarding empty chunks. -/
def pySplitWs : List Char → List Char → List (List Char)
  | [], acc => if acc.isEmpty then [] else [acc.reverse]
  | c :: rest, acc =>
    if pyIsSpace c then
      if acc.isEmpty then pySplitWs rest []
      else acc.reverse :: pySplitWs rest []
    else pySplitWs rest (c :: acc)

/-- Python `str.strip("._")`: drop leading and trailing dots and underscores. -/
def stripDotUnderscore (l : List Char) : List Char :=
  ((l.dropWhile fun c => c = '.' || c = '_').reverse.dropWhile
    fun c => c = '.' || c = '_').reverse

/-- Model of `werkzeug.utils.secure_filename` on POSIX: drop non-ASCII characters
(the `normalize("NFKD").encode("ascii", "ignore")` step, which is the
identity on ASCII input), turn `os.sep` (`/`) into spaces, split on
whitespace and re-join with underscores, drop every character outside
`[A-Za-z0-9_.-]`, and strip leading/trailing dots and underscores. -/
def secure_filename (s : String) : String :=
  let ascii := s.toList.filter fun c => c.toNat < 128
  let spaced := ascii.map fun c => if c = '/' then ' ' else c
  let joined := List.intercalate ['_'] (pySplitWs spaced [])
  String.mk (stripDotUnderscore (joined.filter filenameKeepChar))

/-- Model of `os.path.join` on POSIX for the shapes the handlers use: an absolute
second component wins, otherwise the components are joined with `/`. -/
def osPathJoin (a b : String) : String :=
  if b.toList.head? = some '/' then b
  else if a.toList.getLast? = some '/' then a ++ b else a ++ "/" ++ b

/-- The configured `app.config['UPLOAD_FOLDER']` of main.py. -/
def UPLOAD_FOLDER : String := "static/uploads"

/-- The set `ALLOWED_EXTENSIONS` of main.py line 9, defined by the source and never
consulted by any handler afterwards. -/
def ALLOWED_EXTENSIONS : List String := ["txt", "pdf", "png", "jpg", "jpeg", "gif"]

/-- The extension part of `os.path.splitext`, with its leading dot: the
suffix of the basename from its last dot, unless every character before that
dot is itself a dot (so `.bashrc` has no extension). -/
def splitextExt (path : String) : String :=
  let base := (path.toList.reverse.takeWhile fun c => c ≠ '/').reverse
  match base.reverse.findIdx? (fun c => c = '.') with
  | none => ""
  | some i =>
    let dotPos := base.length - 1 - i
    if (base.take dotPos).any (fun c => c ≠ '.') then
      String.mk (base.drop dotPos)
    else ""

/-- An uploaded file: the client-supplied filename and the binary content.
`request.files['photo']` with an empty file field is falsy in Python; that
case is `Option.none` at the call sites below. -/
structure Upload where
  filename : String
  content : String
deriving DecidableEq, Repr

/-! The route handlers. -/

/-- Decimal digits accumulated left to right; `none` on a non-digit. -/
def digitsVal : List Char → Nat → Option Nat
  | [], acc => some acc
  | c :: rest, acc =>
    if 48 ≤ c.toNat && c.toNat ≤ 57 then digitsVal rest (acc * 10 + (c.toNat - 48))
    else none

/-- Python `int(s)` on the trimmed decimal strings the handlers convert (an optional
sign followed by digits); `none` means `int()` raises — `ValueError` on a
non-numeric string, `TypeError` on `None` — which escapes or is caught
depending on the handler's `try` block. -/
def pyInt (s : String) : Option Int :=
  match s.toList with
  | [] => none
  | '-' :: rest =>
    if rest.isEmpty then none else (digitsVal rest 0).map fun n => -(n : Int)
  | '+' :: rest =>
    if rest.isEmpty then none else (digitsVal rest 0).map fun n => (n : Int)
  | l => (digitsVal l 0).map fun n => (n : Int)

/-- Python truthiness of `resp_data.get("id")` in `add_book`
(`if not id_book:`): `None` and `0` are falsy. -/
def idFalsy : Option Nat → Bool
  | none => true
  | some n => n = 0

/-- Handler for `POST /add_author` (main.py lines 218-278), after the validator passed.
Inputs: the form fields, the uploaded photo (`none` when the file field is
empty and hence falsy), and the upstream responses to the create call and —
if reached — the photo-attach call.

On a non-201 create status the source evaluates
`'Failed to add author whit status code:' + resp.status_code` as the eager
default argument of `.get`; `resp` is unassigned on that path, so an
`UnboundLocalError` is raised and caught by `except Exception`, which
returns its text as the 500 error body. -/
def add_author_post (form : List (String × String)) (photo : Option Upload)
    (createResp attachResp : UpstreamResp) : Outcome :=
  let data := Payload.authorJson (form.lookup "firstname") (form.lookup "lastname") (some "")
  let createCall : UpstreamCall := ⟨.POST, "/authors/new", some data⟩
  match createResp with
  | .transportFail msg =>
      { result := .ok (.jsonError 500 (pyStr (.requestExc msg)) none),
        eff := ⟨[createCall], []⟩ }
  | .http status body =>
    if status = 201 then
      let id_author := body.id.getD 0
      if id_author = 0 then
        { result := .ok (.jsonError 500 (body.error.getD "Failed to add author") none),
          eff := ⟨[createCall], []⟩ }
      else
        match photo with
        | some p =>
          let filename := secure_filename p.filename
          let photo_path := osPathJoin UPLOAD_FOLDER filename
          let file_extension := splitextExt photo_path
          let attachCall : UpstreamCall :=
            ⟨.POST, "/author/photo/" ++ toString id_author,
             some (.binary photo_path ("image/" ++ file_extension))⟩
          let effs : Effects := ⟨[createCall, attachCall], [(photo_path, p.content)]⟩
          match attachResp with
          | .transportFail msg =>
              { result := .ok (.jsonError 500 (pyStr (.requestExc msg)) none), eff := effs }
          | .http s2 b2 =>
            if s2 ≠ 200 then
              { result := .ok (.jsonError 500 (b2.error.getD "Failed to add author") none),
                eff := effs }
            else
              { result := .ok (.redirect "get_authors"), eff := effs }
        | none =>
            { result := .ok (.redirect "get_authors"), eff := ⟨[createCall], []⟩ }
    else
      { result := .ok (.jsonError 500 (pyStr (.unboundLocal "resp")) none),
        eff := ⟨[createCall], []⟩ }

/-- Handler for `POST /add_book` (main.py lines 293-337), after the validator passed.
The `authors` local is only assigned on the GET path below the `try` block,
so every error branch that renders `add_book_form.html` with
`authors=authors` raises `UnboundLocalError`; the `except` clause only
catches `requests.RequestException`, so that error (and the ones raised
inside the `except` clause itself) escape the handler and Flask answers a
generic 500. `int(author_id)` runs before the `try` block: a missing or
non-numeric `author` field raises an uncaught `TypeError`/`ValueError`. -/
def add_book_post (form : List (String × String)) (photo : Option Upload)
    (createResp attachResp : UpstreamResp) : Outcome :=
  match (form.lookup "author").bind pyInt with
  | none =>
      { result := .uncaught (.valueError "int() of the author field"), eff := ⟨[], []⟩ }
  | some aid =>
    let data : BookPayload :=
      { title := form.lookup "title"
        details := form.lookup "details"
        author_id := aid
        is_borrowed := ((form.lookup "is_borrowed").getD "off") = "on"
        photo := some "" }
    let createCall : UpstreamCall := ⟨.POST, "/books/new", some (.bookJson data)⟩
    match createResp with
    | .transportFail _ =>
        { result := .uncaught (.unboundLocal "authors"), eff := ⟨[createCall], []⟩ }
    | .http status body =>
      if 400 ≤ status ∧ status < 600 then
        { result := .uncaught (.unboundLocal "authors"), eff := ⟨[createCall], []⟩ }
      else if idFalsy body.id then
        { result := .uncaught (.unboundLocal "authors"), eff := ⟨[createCall], []⟩ }
      else
        let id_book := body.id.getD 0
        match photo with
        | some p =>
          let filename := secure_filename p.filename
          let photo_path := osPathJoin UPLOAD_FOLDER filename
          let file_extension := splitextExt photo_path
          let attachCall : UpstreamCall :=
            ⟨.POST, "/books/photo/" ++ toString id_book,
             some (.binary photo_path ("image/" ++ file_extension))⟩
          let effs : Effects := ⟨[createCall, attachCall], [(photo_path, p.content)]⟩
          match attachResp with
          | .transportFail _ =>
              { result := .uncaught (.unboundLocal "authors"), eff := effs }
          | .http s2 _ =>
            if s2 ≠ 200 then
              { result := .uncaught (.unboundLocal "authors"), eff := effs }
            else
              { result := .ok (.redirect "index"), eff := effs }
        | none =>
            { result := .ok (.redirect "index"), eff := ⟨[createCall], []⟩ }

/-- Handler for `POST /book/<book_id>` (`update_book`, main.py lines 418-448), after the
validator passed. The whole body is inside `try ... except Exception`, so an
`int()` failure on the author field is caught and returned as a 500. -/
def update_book_post (book_id : Nat) (form : List (String × String))
    (photo : Option Upload) (putResp : UpstreamResp) : Outcome :=
  let photoStaged :=
    match photo with
    | some p =>
      let filename := secure_filename p.filename
      some (osPathJoin UPLOAD_FOLDER filename, "photos/" ++ filename, p.content)
    | none => none
  let writes :=
    match photoStaged with
    | some (fsPath, _, content) => [(fsPath, content)]
    | none => []
  let photo_path :=
    match photoStaged with
    | some (_, urlPath, _) => some urlPath
    | none => form.lookup "existing_photo"
  match (form.lookup "author").bind pyInt with
  | none =>
      { result := .ok (.jsonError 500 (pyStr (.valueError "int() of the author field")) none),
        eff := ⟨[], writes⟩ }
  | some aid =>
    let data : BookPayload :=
      { title := form.lookup "title"
        details := form.lookup "details"
        author_id := aid
        is_borrowed := ((form.lookup "is_borrowed").getD "off") = "on"
        photo := photo_path }
    let putCall : UpstreamCall := ⟨.PUT, "/books/" ++ toString book_id, some (.bookJson data)⟩
    match putResp with
    | .transportFail msg =>
        { result := .ok (.jsonError 500 (pyStr (.requestExc msg)) none),
          eff := ⟨[putCall], writes⟩ }
    | .http status _ =>
      if status ≠ 200 then
        { result := .ok (.jsonError 400 "Error updating book" none),
          eff := ⟨[putCall], writes⟩ }
      else
        { result := .ok (.redirect "book_details"), eff := ⟨[putCall], writes⟩ }

/-- Handler for `POST /add_subscriber` (main.py lines 369-392), after the
validator passed. -/
def add_subscriber_post (form : List (String × String))
    (createResp : UpstreamResp) : Outcome :=
  let data := Payload.subscriberJson (form.lookup "firstname")
    (form.lookup "lastname") (form.lookup "email")
  let createCall : UpstreamCall := ⟨.POST, "/subscribers/new", some data⟩
  match createResp with
  | .transportFail msg =>
      { result := .ok (.jsonError 500 (pyStr (.requestExc msg)) none),
        eff := ⟨[createCall], []⟩ }
  | .http status body =>
    if status = 200 then
      { result := .ok (.redirect "get_subscribers"), eff := ⟨[createCall], []⟩ }
    else
      { result := .ok (.jsonError 500 (body.error.getD "Failed to add subscriber") none),
        eff := ⟨[createCall], []⟩ }

/-- Handler for `POST /register` (`signup`, auth.py lines 13-43). On a transport failure
the `except requests.RequestException` clause answers 500 with a fixed error
string and the exception text as `details`. -/
def signup_post (form : List (String × String)) (resp : UpstreamResp) : Outcome :=
  let data := Payload.credsJson (form.lookup "email") (form.lookup "password")
  let call : UpstreamCall := ⟨.POST, "/signup", some data⟩
  match resp with
  | .transportFail msg =>
      { result := .ok (.jsonError 500 "Failed to connect to the external API" (some msg)),
        eff := ⟨[call], []⟩ }
  | .http status body =>
    if status = 201 then
      { result := .ok (.redirect "login_route"), eff := ⟨[call], []⟩ }
    else if status = 400 ∨ status = 409 then
      { result := .ok (.template "sign_up.html" body.message), eff := ⟨[call], []⟩ }
    else if status = 500 then
      { result := .ok (.jsonError 500 ((body.message).getD "") none), eff := ⟨[call], []⟩ }
    else
      { result := .ok (.jsonError status "An unexpected error occurred" none),
        eff := ⟨[call], []⟩ }

/-! A tiny file-system model for the overwrite analysis. -/

/-- Contents of the upload directory: path to file content. -/
def emptyFS : String → Option String := fun _ => none

/-- Apply a handler's writes, in order, to a directory state; a later write
to the same path replaces the earlier content, as `photo.save` does. -/
def applyWrites (fs : String → Option String) :
    List (String × String) → (String → Option String)
  | [] => fs
  | (p, c) :: rest => applyWrites (fun q => if q = p then some c else fs q) rest

/-- The attach call failed: transport error, or any HTTP status other than 200
(`resp.status_code != 200` in both handlers). -/
def attachFailed : UpstreamResp → Bool
  | .transportFail _ => true
  | .http s _ => s ≠ 200

/-! Validator lemmas. -/

theorem sumFieldLen_cons (k v : String) (rest : List (String × String)) :
    sumFieldLen ((k, v) :: rest) = v.length + sumFieldLen rest := by
  simp [sumFieldLen]

theorem scanFields_ok_total (fl : List (String × Nat)) :
    ∀ (fs : List (String × String)) (acc t : Nat),
      scanFields fl fs acc = Except.ok t → t = acc + sumFieldLen fs := by
  intro fs
  induction fs with
  | nil =>
    intro acc t h
    simp [scanFields] at h
    simp [sumFieldLen, h]
  | cons kv rest ih =>
    intro acc t h
    obtain ⟨k, v⟩ := kv
    simp only [scanFields] at h
    cases hl : fl.lookup k with
    | some lim =>
      rw [hl] at h
      by_cases hv : v.length > lim
      · simp [hv] at h
      · simp only [if_neg hv] at h
        have := ih _ _ h
        rw [sumFieldLen_cons]
        omega
    | none =>
      rw [hl] at h
      simp only at h
      have := ih _ _ h
      rw [sumFieldLen_cons]
      omega

theorem scanFields_error_field (fl : List (String × Nat)) :
    ∀ (fs : List (String × String)) (acc : Nat) (r : ValidationReject),
      scanFields fl fs acc = Except.error r →
      ∃ k lim, r = .fieldTooLong k lim ∧ fl.lookup k = some lim ∧
        ∃ v, (k, v) ∈ fs ∧ lim < v.length := by
  intro fs
  induction fs with
  | nil => intro acc r h; simp [scanFields] at h
  | cons kv rest ih =>
    intro acc r h
    obtain ⟨k, v⟩ := kv
    simp only [scanFields] at h
    cases hl : fl.lookup k with
    | some lim =>
      rw [hl] at h
      by_cases hv : v.length > lim
      · simp only [if_pos hv] at h
        refine ⟨k, lim, ?_, hl, v, by simp, hv⟩
        cases h
        rfl
      · simp only [if_neg hv] at h
        obtain ⟨k2, lim2, hr, hl2, v2, hmem, hlen⟩ := ih _ _ h
        exact ⟨k2, lim2, hr, hl2, v2, by simp [hmem], hlen⟩
    | none =>
      rw [hl] at h
      simp only at h
      obtain ⟨k2, lim2, hr, hl2, v2, hmem, hlen⟩ := ih _ _ h
      exact ⟨k2, lim2, hr, hl2, v2, by simp [hmem], hlen⟩

theorem firstOffender_none_scan (fl : List (String × Nat)) :
    ∀ (fs : List (String × String)) (acc : Nat),
      firstOffender fl fs = none →
      scanFields fl fs acc = Except.ok (acc + sumFieldLen fs) := by
  intro fs
  induction fs with
  | nil => intro acc _; simp [scanFields, sumFieldLen]
  | cons kv rest ih =>
    intro acc h
    obtain ⟨k, v⟩ := kv
    simp only [firstOffender] at h
    simp only [scanFields]
    cases hl : fl.lookup k with
    | some lim =>
      rw [hl] at h
      by_cases hv : v.length > lim
      · simp [hv] at h
      · simp only [if_neg hv] at h ⊢
        rw [ih _ h, sumFieldLen_cons]
        congr 1
        omega
    | none =>
      rw [hl] at h
      simp only at h ⊢
      rw [ih _ h, sumFieldLen_cons]
      congr 1
      omega

theorem firstOffender_scan (fl : List (String × Nat)) :
    ∀ (fs : List (String × String)) (acc : Nat) (k : String) (lim : Nat),
      firstOffender fl fs = some (k, lim) →
      scanFields fl fs acc = Except.error (.fieldTooLong k lim) := by
  intro fs
  induction fs with
  | nil => intro acc k lim h; simp [firstOffender] at h
  | cons kv rest ih =>
    intro acc k lim h
    obtain ⟨k2, v⟩ := kv
    simp only [firstOffender] at h
    simp only [scanFields]
    cases hl : fl.lookup k2 with
    | some lim2 =>
      rw [hl] at h
      by_cases hv : v.length > lim2
      · simp only [if_pos hv] at h ⊢
        cases h
        rfl
      · simp only [if_neg hv] at h ⊢
        exact ih _ _ _ h
    | none =>
      rw [hl] at h
      simp only at h ⊢
      exact ih _ _ _ h

/-- A concrete handler used to instantiate the validator theorems: it issues
an upstream call and stages a file, so a rejection outcome visibly differs
from running it. -/
def probeHandler : Unit → Outcome :=
  fun _ => { result := .ok (.redirect "index"),
             eff := ⟨[⟨.POST, "/books/new", none⟩], [("static/uploads/x.png", "X")]⟩ }

/-- C2: for every POST or PUT form submission whose total field length (in
codepoints) exceeds the configured limit, the `validate_body_length` wrapper
answers with a 400 JSON rejection and the wrapped route handler never runs:
the outcome is the rejection with an empty effect trace — no upstream call
issued, no file staged — whatever the handler would have done. -/
theorem oversized_body_rejected_before_handler
    (maxLength : Nat) (fieldLimits : List (String × Nat)) (method : Method)
    (form : List (String × String)) (handler : Unit → Outcome)
    (hm : method = .POST ∨ method = .PUT)
    (_hnd : (form.map Prod.fst).Nodup)
    (hover : maxLength < sumFieldLen form) :
    ∃ msg, wrapValidated maxLength fieldLimits method form handler =
      { result := .ok (.jsonError 400 msg none), eff := ⟨[], []⟩ } := by
  unfold wrapValidated validate_body_length
  rw [if_pos hm]
  cases hscan : scanFields fieldLimits form 0 with
  | error r => exact ⟨rejectMsg r, rfl⟩
  | ok total =>
    have ht := scanFields_ok_total fieldLimits form 0 total hscan
    have htot : total > maxLength := by omega
    simp only [if_pos htot]
    exact ⟨rejectMsg (.bodyTooLong maxLength), rfl⟩

/-- Witness for C2: a concrete POST whose two fields total 21 codepoints
against a limit of 10 is answered 400 with no effects. -/
theorem oversized_body_rejected_before_handler_witness :
    ((Method.POST = Method.POST ∨ Method.POST = Method.PUT)
      ∧ ([("firstname", "Wolfgang Amadeus"), ("lastname", "Mozart")].map
          (Prod.fst (α := String) (β := String))).Nodup
      ∧ 10 < sumFieldLen [("firstname", "Wolfgang Amadeus"), ("lastname", "Mozart")])
    ∧ ∃ msg, wrapValidated 10 [] .POST
        [("firstname", "Wolfgang Amadeus"), ("lastname", "Mozart")] probeHandler =
        { result := .ok (.jsonError 400 msg none), eff := ⟨[], []⟩ } :=
  ⟨⟨Or.inl rfl, by decide, by decide⟩,
   oversized_body_rejected_before_handler 10 [] .POST
     [("firstname", "Wolfgang Amadeus"), ("lastname", "Mozart")] probeHandler
     (Or.inl rfl) (by decide) (by decide)⟩

/-- C3: when some form field has a declared per-field limit and its value
exceeds it, the validator rejects with 400 and the per-field error of the
first such field in form order; the error message begins with that field's
(capitalized) name. The conclusion holds for every `maxLength`, so the
per-field failure is reported in preference to the aggregate body-length
failure even when the total also exceeds its limit. -/
theorem per_field_rejection_names_field
    (maxLength : Nat) (fieldLimits : List (String × Nat)) (method : Method)
    (form : List (String × String)) (handler : Unit → Outcome)
    (k : String) (lim : Nat)
    (hm : method = .POST ∨ method = .PUT)
    (hoff : firstOffender fieldLimits form = some (k, lim)) :
    validate_body_length maxLength fieldLimits method form
        = some (.fieldTooLong k lim)
    ∧ (∃ tail, rejectMsg (.fieldTooLong k lim) = pyCapitalize k ++ tail)
    ∧ wrapValidated maxLength fieldLimits method form handler =
        { result := .ok (.jsonError 400 (rejectMsg (.fieldTooLong k lim)) none),
          eff := ⟨[], []⟩ } := by
  have hscan := firstOffender_scan fieldLimits form 0 k lim hoff
  refine ⟨?_, ⟨" field too long, should not exceed " ++ toString lim ++ " characters.",
    by simp [rejectMsg, String.append_assoc]⟩, ?_⟩
  · unfold validate_body_length
    rw [if_pos hm, hscan]
  · unfold wrapValidated validate_body_length
    rw [if_pos hm, hscan]

/-- Witness for C3: a 12-codepoint title against a per-field limit of 5 and
an aggregate limit of 10 (which the total also exceeds) is rejected with the
message naming the title field. -/
theorem per_field_rejection_names_field_witness :
    ((Method.POST = Method.POST ∨ Method.POST = Method.PUT)
      ∧ firstOffender [("title", 5)] [("title", "Dune Messiah")] = some ("title", 5)
      ∧ 10 < sumFieldLen [("title", "Dune Messiah")])
    ∧ (validate_body_length 10 [("title", 5)] .POST [("title", "Dune Messiah")]
          = some (.fieldTooLong "title" 5)
      ∧ (∃ tail, rejectMsg (.fieldTooLong "title" 5) = pyCapitalize "title" ++ tail)
      ∧ wrapValidated 10 [("title", 5)] .POST [("title", "Dune Messiah")] probeHandler =
          { result := .ok (.jsonError 400 (rejectMsg (.fieldTooLong "title" 5)) none),
            eff := ⟨[], []⟩ }) :=
  ⟨⟨Or.inl rfl, by decide, by decide⟩,
   per_field_rejection_names_field 10 [("title", 5)] .POST [("title", "Dune Messiah")]
     probeHandler "title" 5 (Or.inl rfl) (by decide)⟩

/-- C10: the validator checks only POST and PUT requests (any other method
goes straight to the handler, whatever the field lengths); a per-field
rejection only ever names a field with a declared per-field limit whose
value's codepoint length exceeds that limit — a field without a declared
limit is never rejected individually; and when no field violates its
per-field limit, the aggregate rejection fires exactly when the sum of the
codepoint lengths of all fields exceeds the limit. -/
theorem validator_method_and_units
    (maxLength : Nat) (fieldLimits : List (String × Nat))
    (form : List (String × String)) (handler : Unit → Outcome) :
    (∀ method, method ≠ .POST → method ≠ .PUT →
      validate_body_length maxLength fieldLimits method form = none
      ∧ wrapValidated maxLength fieldLimits method form handler = handler ())
    ∧ (∀ method k lim,
        validate_body_length maxLength fieldLimits method form
            = some (.fieldTooLong k lim) →
        fieldLimits.lookup k = some lim ∧ ∃ v, (k, v) ∈ form ∧ lim < v.length)
    ∧ (firstOffender fieldLimits form = none →
        (validate_body_length maxLength fieldLimits .POST form
            = some (.bodyTooLong maxLength) ↔ maxLength < sumFieldLen form)) := by
  refine ⟨?_, ?_, ?_⟩
  · intro method h1 h2
    have hm : ¬(method = .POST ∨ method = .PUT) := by
      rintro (h | h)
      · exact h1 h
      · exact h2 h
    refine ⟨?_, ?_⟩
    · unfold validate_body_length
      rw [if_neg hm]
    · unfold wrapValidated validate_body_length
      rw [if_neg hm]
  · intro method k lim h
    unfold validate_body_length at h
    by_cases hm : method = .POST ∨ method = .PUT
    · rw [if_pos hm] at h
      cases hscan : scanFields fieldLimits form 0 with
      | error r =>
        rw [hscan] at h
        simp only at h
        injection h with h2
        obtain ⟨k2, lim2, hr, hl2, v, hmem, hv⟩ :=
          scanFields_error_field fieldLimits form 0 r hscan
        rw [h2] at hr
        injection hr with e1 e2
        subst e1
        subst e2
        exact ⟨hl2, v, hmem, hv⟩
      | ok total =>
        rw [hscan] at h
        simp only at h
        by_cases ht : total > maxLength
        · simp [ht] at h
        · simp [ht] at h
    · rw [if_neg hm] at h
      cases h
  · intro hoff
    have hscan := firstOffender_none_scan fieldLimits form 0 hoff
    unfold validate_body_length
    rw [if_pos (Or.inl rfl), hscan]
    simp only
    by_cases ht : 0 + sumFieldLen form > maxLength
    · simp only [if_pos ht]
      constructor
      · intro _
        omega
      · intro _
        trivial
    · simp only [if_neg ht]
      constructor
      · intro h
        cases h
      · intro h
        omega

/-- Witness for C10: a GET with an oversized field passes straight through;
the concrete per-field rejection names a declared field; a field with no
declared limit trips only the aggregate check. -/
theorem validator_method_and_units_witness :
    (validate_body_length 100 [("title", 5)] .GET [("title", "abcdefgh")] = none
      ∧ wrapValidated 100 [("title", 5)] .GET [("title", "abcdefgh")] probeHandler
          = probeHandler ())
    ∧ (List.lookup "title" [("title", 5)] = some 5
      ∧ ∃ v, ("title", v) ∈ [("title", "abcdefgh")] ∧ 5 < v.length)
    ∧ validate_body_length 3 [] .POST [("note", "abcdef")] = some (.bodyTooLong 3) := by
  refine ⟨(validator_method_and_units 100 [("title", 5)] [("title", "abcdefgh")]
      probeHandler).1 .GET (by decide) (by decide), ?_, ?_⟩
  · exact (validator_method_and_units 100 [("title", 5)] [("title", "abcdefgh")]
      probeHandler).2.1 .POST "title" 5 (by decide)
  · exact ((validator_method_and_units 3 [] [("note", "abcdef")]
      probeHandler).2.2 (by decide)).mpr (by decide)

/-- C1: in both `add_author` and `add_book`, when the upstream create call
succeeds (201 with a usable id) but the photo-attach call then fails
(transport failure or any non-200 status), the handler answers the caller
with HTTP 500 — `add_author` with an explicit JSON error, `add_book` through
the uncaught `UnboundLocalError` on `authors` — and never with a success
redirect. -/
theorem attach_failure_never_reported_as_success
    (formA formB : List (String × String)) (pA pB : Upload)
    (bodyA bodyB : JsonBody) (attachA attachB : UpstreamResp) (aid : Int)
    (hidA : bodyA.id.getD 0 ≠ 0)
    (hidB : idFalsy bodyB.id = false)
    (haid : (formB.lookup "author").bind pyInt = some aid)
    (hfA : attachFailed attachA = true)
    (hfB : attachFailed attachB = true) :
    (httpStatus (add_author_post formA (some pA) (.http 201 bodyA) attachA).result = 500
      ∧ ∀ e, (add_author_post formA (some pA) (.http 201 bodyA) attachA).result
          ≠ .ok (.redirect e))
    ∧ (httpStatus (add_book_post formB (some pB) (.http 201 bodyB) attachB).result = 500
      ∧ ∀ e, (add_book_post formB (some pB) (.http 201 bodyB) attachB).result
          ≠ .ok (.redirect e)) := by
  have hA : ∃ msg, (add_author_post formA (some pA) (.http 201 bodyA) attachA).result
      = .ok (.jsonError 500 msg none) := by
    cases attachA with
    | transportFail m =>
      refine ⟨pyStr (.requestExc m), ?_⟩
      simp [add_author_post, hidA]
    | http s2 b2 =>
      have hs2 : s2 ≠ 200 := by simpa [attachFailed] using hfA
      refine ⟨b2.error.getD "Failed to add author", ?_⟩
      simp [add_author_post, hidA, hs2]
  have hB : (add_book_post formB (some pB) (.http 201 bodyB) attachB).result
      = .uncaught (.unboundLocal "authors") := by
    have h4 : ¬(400 ≤ 201 ∧ 201 < 600) := by omega
    cases attachB with
    | transportFail m =>
      simp [add_book_post, haid, h4, hidB]
    | http s2 b2 =>
      have hs2 : s2 ≠ 200 := by simpa [attachFailed] using hfB
      simp [add_book_post, haid, h4, hidB, hs2]
  obtain ⟨msg, hA⟩ := hA
  refine ⟨⟨?_, ?_⟩, ⟨?_, ?_⟩⟩
  · rw [hA]; rfl
  · intro e h
    rw [hA] at h
    cases h
  · rw [hB]; rfl
  · intro e h
    rw [hB] at h
    cases h

/-- Witness for C1: create succeeds with id 7 (author) and id 9 (book), the
attach call answers 500, and both handlers answer 500 and do not redirect. -/
theorem attach_failure_never_reported_as_success_witness :
    (((⟨some 7, none, none⟩ : JsonBody).id.getD 0 ≠ 0)
      ∧ idFalsy (⟨some 9, none, none⟩ : JsonBody).id = false
      ∧ ([("title", "Dune"), ("author", "3")].lookup "author").bind pyInt = some 3
      ∧ attachFailed (.http 500 ⟨none, some "disk full", none⟩) = true)
    ∧ (httpStatus (add_author_post [("firstname", "Ann"), ("lastname", "Lee")]
          (some ⟨"a.png", "X"⟩) (.http 201 ⟨some 7, none, none⟩)
          (.http 500 ⟨none, some "disk full", none⟩)).result = 500
      ∧ ∀ e, (add_author_post [("firstname", "Ann"), ("lastname", "Lee")]
          (some ⟨"a.png", "X"⟩) (.http 201 ⟨some 7, none, none⟩)
          (.http 500 ⟨none, some "disk full", none⟩)).result ≠ .ok (.redirect e))
    ∧ (httpStatus (add_book_post [("title", "Dune"), ("author", "3")]
          (some ⟨"b.png", "Y"⟩) (.http 201 ⟨some 9, none, none⟩)
          (.http 500 ⟨none, some "disk full", none⟩)).result = 500
      ∧ ∀ e, (add_book_post [("title", "Dune"), ("author", "3")]
          (some ⟨"b.png", "Y"⟩) (.http 201 ⟨some 9, none, none⟩)
          (.http 500 ⟨none, some "disk full", none⟩)).result ≠ .ok (.redirect e)) := by
  have h := attach_failure_never_reported_as_success
    [("firstname", "Ann"), ("lastname", "Lee")] [("title", "Dune"), ("author", "3")]
    ⟨"a.png", "X"⟩ ⟨"b.png", "Y"⟩ ⟨some 7, none, none⟩ ⟨some 9, none, none⟩
    (.http 500 ⟨none, some "disk full", none⟩) (.http 500 ⟨none, some "disk full", none⟩)
    3 (by decide) (by decide) (by decide) (by decide) (by decide)
  exact ⟨⟨by decide, by decide, by decide, by decide⟩, h.1, h.2⟩

/-- C6: when the upstream create call fails at the transport level, every
create handler answers HTTP 500: `add_author` and `add_subscriber` with an
explicit JSON 500, `add_book` through its uncaught `UnboundLocalError`, and
`signup` with its fixed connection-failure 500. -/
theorem transport_failure_returns_500
    (formA formB formU formS : List (String × String))
    (photoA photoB : Option Upload) (msg : String) (aid : Int)
    (attach : UpstreamResp)
    (haid : (formB.lookup "author").bind pyInt = some aid) :
    httpStatus (add_author_post formA photoA (.transportFail msg) attach).result = 500
    ∧ httpStatus (add_book_post formB photoB (.transportFail msg) attach).result = 500
    ∧ httpStatus (add_subscriber_post formU (.transportFail msg)).result = 500
    ∧ httpStatus (signup_post formS (.transportFail msg)).result = 500 := by
  refine ⟨rfl, ?_, rfl, rfl⟩
  simp [add_book_post, haid, httpStatus]

/-- Witness for C6 at a concrete connection-refused failure. -/
theorem transport_failure_returns_500_witness :
    (([("title", "Dune"), ("author", "3")].lookup "author").bind pyInt = some 3
    ∧ httpStatus (add_author_post [("firstname", "Ann")] none
        (.transportFail "connection refused") (.http 200 ⟨none, none, none⟩)).result = 500
    ∧ httpStatus (add_book_post [("title", "Dune"), ("author", "3")] none
        (.transportFail "connection refused") (.http 200 ⟨none, none, none⟩)).result = 500
    ∧ httpStatus (add_subscriber_post [("email", "a@b.c")]
        (.transportFail "connection refused")).result = 500
    ∧ httpStatus (signup_post [("email", "a@b.c")]
        (.transportFail "connection refused")).result = 500) := by
  have h := transport_failure_returns_500 [("firstname", "Ann")]
    [("title", "Dune"), ("author", "3")] [("email", "a@b.c")] [("email", "a@b.c")]
    none none "connection refused" 3 (.http 200 ⟨none, none, none⟩) (by decide)
  exact ⟨by decide, h.1, h.2.1, h.2.2.1, h.2.2.2⟩

/-- C7: when the attach step fails after a successful create, `add_author`
has issued exactly its two POST calls — create entity, then attach photo —
and nothing else: in particular no DELETE call toward the upstream API, so
the created author is left in place with no compensation attempted. -/
theorem no_compensating_delete_after_attach_failure
    (form : List (String × String)) (p : Upload) (body : JsonBody)
    (attach : UpstreamResp)
    (hid : body.id.getD 0 ≠ 0)
    (hf : attachFailed attach = true) :
    ((add_author_post form (some p) (.http 201 body) attach).eff.calls.map
        (fun c => c.method) = [.POST, .POST])
    ∧ ∀ c ∈ (add_author_post form (some p) (.http 201 body) attach).eff.calls,
        c.method ≠ .DELETE := by
  have hcalls : (add_author_post form (some p) (.http 201 body) attach).eff.calls.map
      (fun c => c.method) = [.POST, .POST] := by
    cases attach with
    | transportFail m =>
      simp [add_author_post, hid]
    | http s2 b2 =>
      have hs2 : s2 ≠ 200 := by simpa [attachFailed] using hf
      simp [add_author_post, hid, hs2]
  refine ⟨hcalls, ?_⟩
  intro c hc habs
  have hmem : c.method ∈ [Method.POST, Method.POST] :=
    hcalls ▸ List.mem_map_of_mem (fun c => c.method) hc
  rw [habs] at hmem
  simp at hmem

/-- Witness for C7: with the attach call answering 500, the trace is the two
POST calls and contains no DELETE. -/
theorem no_compensating_delete_after_attach_failure_witness :
    (((⟨some 7, none, none⟩ : JsonBody).id.getD 0 ≠ 0)
      ∧ attachFailed (.http 500 ⟨none, some "disk full", none⟩) = true)
    ∧ ((add_author_post [("firstname", "Ann")] (some ⟨"a.png", "X"⟩)
          (.http 201 ⟨some 7, none, none⟩)
          (.http 500 ⟨none, some "disk full", none⟩)).eff.calls.map
            (fun c => c.method) = [.POST, .POST])
    ∧ ∀ c ∈ (add_author_post [("firstname", "Ann")] (some ⟨"a.png", "X"⟩)
          (.http 201 ⟨some 7, none, none⟩)
          (.http 500 ⟨none, some "disk full", none⟩)).eff.calls, c.method ≠ .DELETE := by
  have h := no_compensating_delete_after_attach_failure [("firstname", "Ann")]
    ⟨"a.png", "X"⟩ ⟨some 7, none, none⟩ (.http 500 ⟨none, some "disk full", none⟩)
    (by decide) (by decide)
  exact ⟨⟨by decide, by decide⟩, h.1, h.2⟩

/-- C4 (what the code does): `ALLOWED_EXTENSIONS` is never consulted by any
handler — a photo named `evil.exe`, whose extension is not in the allow-list,
is written to the upload directory, forwarded upstream, and the request
succeeds with the usual redirect. -/
theorem disallowed_extension_is_staged :
    (add_author_post [("firstname", "Ann"), ("lastname", "Lee")]
        (some ⟨"evil.exe", "MZ-blob"⟩)
        (.http 201 ⟨some 7, none, none⟩) (.http 200 ⟨none, none, none⟩)).eff.writes
      = [("static/uploads/evil.exe", "MZ-blob")]
    ∧ (add_author_post [("firstname", "Ann"), ("lastname", "Lee")]
        (some ⟨"evil.exe", "MZ-blob"⟩)
        (.http 201 ⟨some 7, none, none⟩) (.http 200 ⟨none, none, none⟩)).result
      = .ok (.redirect "get_authors")
    ∧ ¬ ("exe" ∈ ALLOWED_EXTENSIONS) := by
  refine ⟨by decide, by decide, by decide⟩

set_option maxRecDepth 4000 in
/-- C5 (what the code does): on a 409 duplicate rejection from the author
create call, `add_author` does not pass the upstream message through —
evaluating the eager default argument on its error line references the
never-assigned local `resp`, the `UnboundLocalError` is caught by
`except Exception`, and the caller receives a 500 whose error text is the
Python exception message; the upstream word "duplicate" appears nowhere in
it. -/
theorem duplicate_message_not_passed_verbatim :
    (add_author_post [("firstname", "Ann"), ("lastname", "Lee")] none
        (.http 409 ⟨none, some "duplicate", none⟩) (.http 200 ⟨none, none, none⟩)).result
      = .ok (.jsonError 500 (pyStr (.unboundLocal "resp")) none)
    ∧ httpStatus (add_author_post [("firstname", "Ann"), ("lastname", "Lee")] none
        (.http 409 ⟨none, some "duplicate", none⟩)
        (.http 200 ⟨none, none, none⟩)).result = 500
    ∧ ¬ ("duplicate".toList <:+: (pyStr (.unboundLocal "resp")).toList) := by
  refine ⟨by decide, by decide, by decide⟩

/-- C8 is false on the code: two distinct submissions carrying the same
client-supplied filename `a.png` derive the identical staged storage path
`static/uploads/a.png` — the paths are not distinct. -/
theorem identical_filenames_same_path :
    ((add_author_post [("firstname", "Ann"), ("lastname", "Lee")]
        (some ⟨"a.png", "FIRST"⟩)
        (.http 201 ⟨some 1, none, none⟩) (.http 200 ⟨none, none, none⟩)).eff.writes.map
          Prod.fst)
      = ["static/uploads/a.png"]
    ∧ ((add_author_post [("firstname", "Cal"), ("lastname", "Roy")]
        (some ⟨"a.png", "SECOND"⟩)
        (.http 201 ⟨some 2, none, none⟩) (.http 200 ⟨none, none, none⟩)).eff.writes.map
          Prod.fst)
      = ["static/uploads/a.png"] := by
  refine ⟨by decide, by decide⟩

/-- C8 amended: the staged path is a deterministic function of the sanitized
filename — `os.path.join(UPLOAD_FOLDER, secure_filename(name))` with no
random or content-derived component — so two submissions with identical
client-supplied filenames stage to the same path, and after both requests
the upload directory holds the second submission's content at that shared
path: the later staged file has overwritten the earlier one. -/
theorem later_upload_overwrites_earlier
    (f1 f2 c1 c2 : String) (h : f1 = f2) :
    applyWrites
      (applyWrites emptyFS
        (add_author_post [("firstname", "Ann"), ("lastname", "Lee")]
          (some ⟨f1, c1⟩) (.http 201 ⟨some 1, none, none⟩)
          (.http 200 ⟨none, none, none⟩)).eff.writes)
      (add_author_post [("firstname", "Cal"), ("lastname", "Roy")]
        (some ⟨f2, c2⟩) (.http 201 ⟨some 2, none, none⟩)
        (.http 200 ⟨none, none, none⟩)).eff.writes
      (osPathJoin UPLOAD_FOLDER (secure_filename f1)) = some c2 := by
  subst h
  simp [add_author_post, applyWrites, emptyFS]

/-- Witness for the amended C8 at the concrete filename `a.png`: the
surviving content at the shared path is the second submission's. -/
theorem later_upload_overwrites_earlier_witness :
    ("a.png" = "a.png")
    ∧ applyWrites
        (applyWrites emptyFS
          (add_author_post [("firstname", "Ann"), ("lastname", "Lee")]
            (some ⟨"a.png", "FIRST"⟩) (.http 201 ⟨some 1, none, none⟩)
            (.http 200 ⟨none, none, none⟩)).eff.writes)
        (add_author_post [("firstname", "Cal"), ("lastname", "Roy")]
          (some ⟨"a.png", "SECOND"⟩) (.http 201 ⟨some 2, none, none⟩)
          (.http 200 ⟨none, none, none⟩)).eff.writes
        (osPathJoin UPLOAD_FOLDER (secure_filename "a.png")) = some "SECOND" :=
  ⟨rfl, later_upload_overwrites_earlier "a.png" "a.png" "FIRST" "SECOND" rfl⟩

/-- The condition `request.form.get('is_borrowed', 'off') == 'on'` holds
exactly when the field is present with value "on". -/
theorem getD_off_eq_on (o : Option String) :
    ((o.getD "off") = "on") ↔ o = some "on" := by
  cases o with
  | none =>
    simp only [Option.getD_none]
    constructor
    · intro h
      exact absurd h (by decide)
    · intro h
      cases h
  | some v =>
    simp only [Option.getD_some]
    constructor
    · intro h
      rw [h]
    · intro h
      injection h

/-- C9: the `is_borrowed` flag in the payload `add_book` sends to the create
endpoint and `update_book` sends to the update endpoint is true exactly when
the submitted form field `is_borrowed` has the value "on"; an absent field,
or any other value, yields false. -/
theorem is_borrowed_flag_from_form
    (form : List (String × String)) (photo : Option Upload)
    (createResp attachResp putResp : UpstreamResp) (book_id : Nat) (aid : Int)
    (haid : (form.lookup "author").bind pyInt = some aid) :
    (∃ d, (add_book_post form photo createResp attachResp).eff.calls.head?
        = some ⟨.POST, "/books/new", some (.bookJson d)⟩
      ∧ (d.is_borrowed = true ↔ form.lookup "is_borrowed" = some "on"))
    ∧ (∃ d, (update_book_post book_id form photo putResp).eff.calls.head?
        = some ⟨.PUT, "/books/" ++ toString book_id, some (.bookJson d)⟩
      ∧ (d.is_borrowed = true ↔ form.lookup "is_borrowed" = some "on")) := by
  have hiff : (decide (((form.lookup "is_borrowed").getD "off") = "on") = true)
      ↔ form.lookup "is_borrowed" = some "on" := by
    rw [decide_eq_true_iff]
    exact getD_off_eq_on _
  constructor
  · refine ⟨{ title := form.lookup "title", details := form.lookup "details",
              author_id := aid,
              is_borrowed := decide (((form.lookup "is_borrowed").getD "off") = "on"),
              photo := some "" }, ?_, hiff⟩
    unfold add_book_post
    rw [haid]
    cases createResp with
    | transportFail m => rfl
    | http s b =>
      by_cases h4 : 400 ≤ s ∧ s < 600
      · simp only [if_pos h4]
        rfl
      · simp only [if_neg h4]
        by_cases hf : idFalsy b.id = true
        · simp only [if_pos hf]
          rfl
        · simp only [Bool.not_eq_true] at hf
          simp only [hf, if_neg]
          cases photo with
          | none => simp
          | some p =>
            cases attachResp with
            | transportFail m => simp
            | http s2 b2 =>
              by_cases h2 : s2 ≠ 200
              · simp only [if_pos h2]
                simp
              · simp only [if_neg h2]
                simp
  · refine ⟨{ title := form.lookup "title", details := form.lookup "details",
              author_id := aid,
              is_borrowed := decide (((form.lookup "is_borrowed").getD "off") = "on"),
              photo := (match photo with
                | some p => some ("photos/" ++ secure_filename p.filename)
                | none => form.lookup "existing_photo") }, ?_, hiff⟩
    unfold update_book_post
    rw [haid]
    cases photo with
    | none =>
      cases putResp with
      | transportFail m => rfl
      | http s b =>
        by_cases h2 : s ≠ 200
        · simp only [if_pos h2]
          rfl
        · simp only [if_neg h2]
          rfl
    | some p =>
      cases putResp with
      | transportFail m => rfl
      | http s b =>
        by_cases h2 : s ≠ 200
        · simp only [if_pos h2]
          rfl
        · simp only [if_neg h2]
          rfl

/-- Witness for C9: with `is_borrowed=on` submitted, both payloads carry the
flag true. -/
theorem is_borrowed_flag_from_form_witness :
    (([("title", "Dune"), ("author", "3"), ("is_borrowed", "on")].lookup "author").bind
        pyInt = some 3)
    ∧ (∃ d, (add_book_post [("title", "Dune"), ("author", "3"), ("is_borrowed", "on")]
          none (.http 201 ⟨some 9, none, none⟩)
          (.http 200 ⟨none, none, none⟩)).eff.calls.head?
        = some ⟨.POST, "/books/new", some (.bookJson d)⟩
      ∧ (d.is_borrowed = true ↔
          [("title", "Dune"), ("author", "3"), ("is_borrowed", "on")].lookup
            "is_borrowed" = some "on"))
    ∧ (∃ d, (update_book_post 4 [("title", "Dune"), ("author", "3"), ("is_borrowed", "on")]
          none (.http 200 ⟨none, none, none⟩)).eff.calls.head?
        = some ⟨.PUT, "/books/" ++ toString 4, some (.bookJson d)⟩
      ∧ (d.is_borrowed = true ↔
          [("title", "Dune"), ("author", "3"), ("is_borrowed", "on")].lookup
            "is_borrowed" = some "on")) := by
  have h := is_borrowed_flag_from_form
    [("title", "Dune"), ("author", "3"), ("is_borrowed", "on")] none
    (.http 201 ⟨some 9, none, none⟩) (.http 200 ⟨none, none, none⟩)
    (.http 200 ⟨none, none, none⟩) 4 3 (by decide)
  exact ⟨by decide, h.1, h.2⟩
